import Mathlib

/-!
# Verification of the cslog context-logging core

A shallow embedding of the `cslog` Go package (attr.go, context.go,
handler.go, id.go, id_generator.go, logger.go) together with proofs of the
spec's claims about it.

Modelling conventions:

* Go's `context.Context` is a snapshot with the two reserved slots the core
  reads (`ctxKeyLogID`, `ctxKeyParentLogID`) plus an opaque user area; each
  slot holds a type-erased Go value (`GoVal`), `Option` marking "slot never
  set".
* The `LogID` interface is `Option LogIDVal`: `none` is Go's nil interface
  value, `LogIDVal` the concrete implementors `StringLogID` / `ByteLogID`.
  Methods (`IsZero`, `String`) are defined on concrete values only — calling
  them through a nil interface is a Go runtime fault, which the embedding
  surfaces by requiring a `some`.
* The process-wide pluggable `IDGenerator` is modelled by the stream of its
  outputs `ids : Nat → Option LogIDVal` plus an explicit call counter.
* Pointer-receiver methods that assign to receiver fields return the
  receiver's post-state; methods that mutate nothing and return a new object
  return `(receiver post-state, returned object)` where the distinction
  matters (`WithContextAttrs`).
* The inner `slog.Handler` is abstract: an `Enabled` predicate on levels and
  the error its `Handle` reports. `ContextHandler.Handle` returns the list of
  records forwarded to the inner sink (the source has exactly one forwarding
  call site) paired with the returned error; `Logger.log` returns only the
  forwarded-record trace, mirroring `_ = l.Handler().Handle(ctx, r)` which
  discards the error.
* Functions that can hit a Go runtime fault (`Logger.WithContext`, which
  calls `GetLogID(newCtx).String()` and `attr.getFn(ctx)` unguarded) return
  `Option`, `none` marking the fault.
-/

namespace Cslog

/-- Concrete implementors of the `LogID` interface (id.go): `StringLogID`
is a string, `ByteLogID` an 8-byte array (bytes as naturals below 256). -/
inductive LogIDVal where
  | strId (s : String)
  | byteId (b : List Nat)
deriving DecidableEq

/-- The zero value of `ByteLogID` ([8]byte of zeroes). -/
def zeroBytes : List Nat := List.replicate 8 0

/-- Lowercase hex digit for a value below 16. -/
def hexDigit (n : Nat) : Char :=
  if n < 10 then Char.ofNat (48 + n) else Char.ofNat (87 + n)

/-- Two-digit lowercase hex rendering of one byte. -/
def byteHex (b : Nat) : String :=
  String.mk [hexDigit (b / 16 % 16), hexDigit (b % 16)]

/-- Go `hex.EncodeToString` over a byte list. -/
def bytesHex (bs : List Nat) : String :=
  String.join (bs.map byteHex)

/-- Go `IsZero` of a concrete identifier: `StringLogID` is zero iff empty,
`ByteLogID` iff equal to the zero array (id.go). -/
def LogIDVal.isZero : LogIDVal → Bool
  | .strId s => s = ""
  | .byteId b => b = zeroBytes

/-- Go `String()` of a concrete identifier: a `StringLogID` renders as itself,
a `ByteLogID` as `""` when zero and lowercase hex otherwise (id.go). -/
def LogIDVal.string : LogIDVal → String
  | .strId s => s
  | .byteId b => if b = zeroBytes then "" else bytesHex b

/-- A type-erased Go value (`any`) as stored in a context slot or in a
descriptor's `defaultValue`: nil, a string, an int, or a `LogID` value. -/
inductive GoVal where
  | vnil
  | vstr (s : String)
  | vint (n : Int)
  | vid (id : LogIDVal)
deriving DecidableEq

/-- The Go type assertion `v.(LogID)`: succeeds exactly on values whose
dynamic type implements the interface. -/
def asLogID : GoVal → Option LogIDVal
  | .vid id => some id
  | _ => none

/-- Storing a possibly-nil `LogID` interface value as `any`
(`context.WithValue`'s argument): the nil interface stores as nil. -/
def idToAny : Option LogIDVal → GoVal
  | some id => .vid id
  | none => .vnil

/-- A context snapshot: the two reserved slots the core reads, plus opaque
user bindings. `none` means the slot was never set. -/
structure Ctx where
  logId : Option GoVal
  parentLogId : Option GoVal
  user : List (String × GoVal)
deriving DecidableEq

/-- Go `context.Background()`. -/
def backgroundCtx : Ctx := ⟨none, none, []⟩

/-- Go `GetLogID` (context.go): type-asserts the `ctxKeyLogID` slot to `LogID`,
returning nil (`none`) when the slot is unset or of another stored type. -/
def GetLogID (ctx : Ctx) : Option LogIDVal :=
  match ctx.logId with
  | some v => asLogID v
  | none => none

/-- Go `SetLogID` (context.go): stores the given identifier in the reserved
current-identifier slot. -/
def SetLogID (ctx : Ctx) (logID : Option LogIDVal) : Ctx :=
  { ctx with logId := some (idToAny logID) }

/-- Go `GetParentLogID` (context.go). -/
def GetParentLogID (ctx : Ctx) : Option LogIDVal :=
  match ctx.parentLogId with
  | some v => asLogID v
  | none => none

/-- Go `SetParentLogID` (context.go). -/
def SetParentLogID (ctx : Ctx) (parentLogID : Option LogIDVal) : Ctx :=
  { ctx with parentLogId := some (idToAny parentLogID) }

/-- Go `WithLogContext` (context.go): sets a freshly generated identifier,
advancing the generator; the generator is the stream `ids` at counter
`cnt`. -/
def WithLogContext (ids : Nat → Option LogIDVal) (cnt : Nat) (ctx : Ctx) : Ctx × Nat :=
  (SetLogID ctx (ids cnt), cnt + 1)

/-- Go `WithChildLogContext` (context.go): the current identifier moves to the
parent slot and a freshly generated identifier becomes current. -/
def WithChildLogContext (ids : Nat → Option LogIDVal) (cnt : Nat) (ctx : Ctx) : Ctx × Nat :=
  let newParentId := GetLogID ctx
  let newLogId := ids cnt
  let newCtx := SetParentLogID ctx newParentId
  let newCtx2 := SetLogID newCtx newLogId
  (newCtx2, cnt + 1)

/-- Go `getLogIdFunc` (context.go): reports not-found when the slot reads nil,
otherwise yields `String()` with found = `!IsZero()`. -/
def getLogIdFunc (ctx : Ctx) : Option GoVal :=
  match GetLogID ctx with
  | none => none
  | some id => if id.isZero then none else some (.vstr id.string)

/-- Go `getParentLogIdFunc` (context.go). -/
def getParentLogIdFunc (ctx : Ctx) : Option GoVal :=
  match GetParentLogID ctx with
  | none => none
  | some id => if id.isZero then none else some (.vstr id.string)

/-- An attribute handed to the inner sink (`slog.Attr`): key plus
type-erased value. -/
structure SAttr where
  key : String
  val : GoVal
deriving DecidableEq

/-- Go `ContextAttr` (attr.go): a descriptor — key, type-erased static default,
optional resolver `getFn` and optional formatter `setFn`. A resolver yields
`some v` for Go's `(v, true)` and `none` for `(_, false)`; a formatter
yields `some attr` for `(attr, true)` and `none` for `(_, false)`. -/
structure ContextAttr where
  key : String
  defaultValue : GoVal
  getFn : Option (Ctx → Option GoVal)
  setFn : Option (String → GoVal → Option SAttr)

/-- Go `Context` (attr.go): the descriptor constructor, storing its arguments
verbatim. -/
def Context (key : String) (defaultValue : GoVal)
    (getFn : Option (Ctx → Option GoVal))
    (setFn : Option (String → GoVal → Option SAttr)) : ContextAttr :=
  ⟨key, defaultValue, getFn, setFn⟩

/-- Go `SetFn()` (attr.go): the default formatter — suppresses on empty key or
nil value, otherwise emits `(key, value)` verbatim. -/
def SetFn (key : String) (value : GoVal) : Option SAttr :=
  if key = "" ∨ value = GoVal.vnil then none else some ⟨key, value⟩

/-- Go `ContextAttr.Attr` (attr.go): empty key suppresses; else the value is the
default, superseded by the resolver's value when the resolver is present and
reports found; the formatter (custom if set, else `SetFn()`) produces the
attribute. -/
def ContextAttr.Attr (a : ContextAttr) (ctx : Ctx) : Option SAttr :=
  if a.key = "" then none
  else
    let value : GoVal :=
      match a.getFn with
      | none => a.defaultValue
      | some g =>
        match g ctx with
        | some v => v
        | none => a.defaultValue
    match a.setFn with
    | some f => f a.key value
    | none => SetFn a.key value

/-- The reserved output key `logId` (logger.go). -/
def keyLogId : String := "logId"

/-- The reserved output key `parentLogId` (logger.go). -/
def keyParentLogId : String := "parentLogId"

/-- Go `slog.Level`, an integer level. -/
abbrev Level := Int

/-- The error type an inner sink's `Handle` reports, opaque to the core. -/
abbrev Err := String

/-- A `slog.Record`: timestamp, level, message and ordered attribute list
(the call-site program counter is runtime-only and not modelled). -/
structure Record where
  time : Nat
  level : Level
  msg : String
  attrs : List SAttr
deriving DecidableEq

/-- Go `Record.AddAttrs` with a single attribute: appends after the attributes
the record already carries. -/
def Record.addAttr (r : Record) (a : SAttr) : Record :=
  { r with attrs := r.attrs ++ [a] }

/-- The inner `slog.Handler`, abstract: its level gate and the error its
`Handle` reports for a given context and record. The records it receives
are tracked by `ContextHandler.Handle` itself. -/
structure InnerHandler where
  enabled : Level → Bool
  handleErr : Ctx → Record → Option Err

/-- Go `ContextHandler` (handler.go): an inner sink plus an ordered descriptor
list. -/
structure ContextHandler where
  ih : InnerHandler
  attrs : List ContextAttr

/-- Go `NewContextHandler` (handler.go): wraps an inner sink with an empty
descriptor list. -/
def NewContextHandler (sHandler : InnerHandler) : ContextHandler :=
  ⟨sHandler, []⟩

/-- Go `ContextHandler.clone` (handler.go): shares the inner sink, copies the
descriptor list into fresh backing storage. -/
def ContextHandler.clone (h : ContextHandler) : ContextHandler :=
  ⟨h.ih, h.attrs⟩

/-- Go `ContextHandler.AddContextAttr` (handler.go): `h.attrs = append(h.attrs,
attr)` — assigns to the receiver's field; the result is the receiver's
post-state (the method returns nothing in Go). -/
def ContextHandler.AddContextAttr (h : ContextHandler) (attr : ContextAttr) : ContextHandler :=
  { h with attrs := h.attrs ++ [attr] }

/-- Go `ContextHandler.Enabled` (handler.go): delegates verbatim to the inner
sink. -/
def ContextHandler.Enabled (h : ContextHandler) (l : Level) : Bool :=
  h.ih.enabled l

/-- The descriptor loop inside `ContextHandler.Handle` (handler.go): for each
descriptor in order, resolve it against the snapshot and append the kept
attribute to the record. -/
def addCtxAttrs : List ContextAttr → Ctx → Record → Record
  | [], _, r => r
  | a :: rest, ctx, r =>
    match a.Attr ctx with
    | some attr => addCtxAttrs rest ctx (r.addAttr attr)
    | none => addCtxAttrs rest ctx r

/-- Go `ContextHandler.Handle` (handler.go): augments the record with the
context attributes, then forwards it to the inner sink once, returning the
inner sink's error. The first component lists the records forwarded to the
inner sink (the source has exactly one `h.ih.Handle` call site). -/
def ContextHandler.Handle (h : ContextHandler) (ctx : Ctx) (r : Record) :
    List Record × Option Err :=
  let r2 := addCtxAttrs h.attrs ctx r
  ([r2], h.ih.handleErr ctx r2)

/-- Go `ContextHandler.SetContextAttrs` (handler.go): a clone whose descriptor
list is replaced wholesale. -/
def ContextHandler.SetContextAttrs (h : ContextHandler) (attrs : List ContextAttr) : ContextHandler :=
  { h.clone with attrs := attrs }

/-- Go `ContextHandler.WithContextAttrs` (handler.go): clones, then appends each
given descriptor to the clone. The first component is the receiver's
post-state (the receiver's fields are never assigned), the second the
returned clone. -/
def ContextHandler.WithContextAttrs (h : ContextHandler) (attrs : List ContextAttr) :
    ContextHandler × ContextHandler :=
  (h, attrs.foldl (fun c a => c.AddContextAttr a) h.clone)

/-- Go `Logger` (logger.go): a thin handle wrapping exactly one
`ContextHandler` (the `slog.Logger` indirection collapses to its
handler). -/
structure Logger where
  handler : ContextHandler

/-- Go `LoggerProvider` (logger.go). -/
structure LoggerProvider where
  logger : Logger

/-- Go `NewLoggerProvider` (logger.go): wraps the inner sink in a
`ContextHandler` carrying the `logId` and `parentLogId` descriptors (nil
defaults, nil formatters). -/
def NewLoggerProvider (innerHandler : InnerHandler) : LoggerProvider :=
  let handler := ((NewContextHandler innerHandler).WithContextAttrs
    [Context keyLogId .vnil (some getLogIdFunc) none,
     Context keyParentLogId .vnil (some getParentLogIdFunc) none]).2
  ⟨⟨handler⟩⟩

/-- Go `Logger.Enabled` (logger.go): delegates through `slog.Logger` to the
handler, hence to the inner sink. -/
def Logger.Enabled (l : Logger) (level : Level) : Bool :=
  l.handler.Enabled level

/-- Go `Logger.log` / `Logger.HandleLog` (logger.go): returns early when the
level is disabled, else builds the record (current time, level, message,
supplied attributes) and hands it to the sink's `Handle`, discarding the
returned error (`_ = l.Handler().Handle(ctx, r)`). The result is the trace
of records forwarded to the inner sink. -/
def Logger.log (l : Logger) (ctx : Ctx) (level : Level) (t : Nat) (msg : String)
    (args : List SAttr) : List Record :=
  if ¬ l.Enabled level then []
  else
    let r : Record := ⟨t, level, msg, args⟩
    (l.handler.Handle ctx r).1

/-- Go `slog.LevelDebug`. -/
def LevelDebug : Level := -4

/-- Go `slog.LevelInfo`. -/
def LevelInfo : Level := 0

/-- Go `slog.LevelWarn`. -/
def LevelWarn : Level := 4

/-- Go `slog.LevelError`. -/
def LevelError : Level := 8

/-- Go `Logger.Log` (logger.go). -/
def Logger.Log (l : Logger) (ctx : Ctx) (level : Level) (t : Nat) (msg : String)
    (args : List SAttr) : List Record :=
  l.log ctx level t msg args

/-- Go `Logger.logAttrs` / `Logger.HandleLogAttrs` (logger.go): same gate and
record construction, for pre-built attributes. -/
def Logger.logAttrs (l : Logger) (ctx : Ctx) (level : Level) (t : Nat) (msg : String)
    (attrs : List SAttr) : List Record :=
  if ¬ l.Enabled level then []
  else
    let r : Record := ⟨t, level, msg, attrs⟩
    (l.handler.Handle ctx r).1

/-- Go `Logger.LogAttrs` (logger.go). -/
def Logger.LogAttrs (l : Logger) (ctx : Ctx) (level : Level) (t : Nat) (msg : String)
    (attrs : List SAttr) : List Record :=
  l.logAttrs ctx level t msg attrs

/-- Go `Logger.Debug` (logger.go): logs at debug level with the background
context. -/
def Logger.Debug (l : Logger) (t : Nat) (msg : String) (args : List SAttr) : List Record :=
  l.log backgroundCtx LevelDebug t msg args

/-- Go `Logger.DebugContext` (logger.go). -/
def Logger.DebugContext (l : Logger) (ctx : Ctx) (t : Nat) (msg : String)
    (args : List SAttr) : List Record :=
  l.log ctx LevelDebug t msg args

/-- Go `Logger.Info` (logger.go). -/
def Logger.Info (l : Logger) (t : Nat) (msg : String) (args : List SAttr) : List Record :=
  l.log backgroundCtx LevelInfo t msg args

/-- Go `Logger.InfoContext` (logger.go). -/
def Logger.InfoContext (l : Logger) (ctx : Ctx) (t : Nat) (msg : String)
    (args : List SAttr) : List Record :=
  l.log ctx LevelInfo t msg args

/-- Go `Logger.Warn` (logger.go). -/
def Logger.Warn (l : Logger) (t : Nat) (msg : String) (args : List SAttr) : List Record :=
  l.log backgroundCtx LevelWarn t msg args

/-- Go `Logger.WarnContext` (logger.go). -/
def Logger.WarnContext (l : Logger) (ctx : Ctx) (t : Nat) (msg : String)
    (args : List SAttr) : List Record :=
  l.log ctx LevelWarn t msg args

/-- Go `Logger.Error` (logger.go). -/
def Logger.Error (l : Logger) (t : Nat) (msg : String) (args : List SAttr) : List Record :=
  l.log backgroundCtx LevelError t msg args

/-- Go `Logger.ErrorContext` (logger.go). -/
def Logger.ErrorContext (l : Logger) (ctx : Ctx) (t : Nat) (msg : String)
    (args : List SAttr) : List Record :=
  l.log ctx LevelError t msg args

/-- Package-level `Info` (logger.go): calls the default provider's logger;
the process-wide default provider is passed explicitly. -/
def pkgInfo (p : LoggerProvider) (t : Nat) (msg : String) (args : List SAttr) : List Record :=
  p.logger.log backgroundCtx LevelInfo t msg args

/-- Package-level `ErrorContext` (logger.go). -/
def pkgErrorContext (p : LoggerProvider) (ctx : Ctx) (t : Nat) (msg : String)
    (args : List SAttr) : List Record :=
  p.logger.log ctx LevelError t msg args

/-- Package-level `Log` (logger.go). -/
def pkgLog (p : LoggerProvider) (ctx : Ctx) (level : Level) (t : Nat) (msg : String)
    (args : List SAttr) : List Record :=
  p.logger.log ctx level t msg args

/-- The condition `id == nil || id.IsZero()` on the result of a context
read (logger.go, `Logger.WithContext`). -/
def logIdNilOrZero (ctx : Ctx) : Bool :=
  match GetLogID ctx with
  | none => true
  | some id => id.isZero

/-- The loop over the sink's registered descriptors inside
`Logger.WithContext` (logger.go): identifier-keyed descriptors are skipped;
for every other descriptor the resolver is invoked on the incoming snapshot
(a Go nil-function fault, `none`, when the descriptor has no resolver) and a
fresh descriptor is built with the same key and resolver, the resolved value
(nil when not found) as static default, and a nil formatter. -/
def buildRestAttrs : List ContextAttr → Ctx → Option (List ContextAttr)
  | [], _ => some []
  | a :: rest, ctx =>
    if a.key = keyLogId ∨ a.key = keyParentLogId then buildRestAttrs rest ctx
    else
      match a.getFn with
      | none => none
      | some g =>
        let defaultValue : GoVal :=
          match g ctx with
          | some v => v
          | none => .vnil
        match buildRestAttrs rest ctx with
        | some tl => some (Context a.key defaultValue a.getFn none :: tl)
        | none => none

/-- Go `Logger.WithContext` (logger.go): ensures the snapshot carries a current
identifier (fresh bind when nil or zero), then builds the replacement
descriptor list — `logId` with the new snapshot's identifier string as
default, `parentLogId` with the incoming snapshot's parent (nil when nil or
zero), then the re-pinned non-identifier descriptors — and returns the
snapshot with a logger over a sink carrying exactly that list. `none` marks
a Go runtime fault (`String()` through a nil identifier, or a descriptor
with a nil resolver). -/
def Logger.WithContext (ids : Nat → Option LogIDVal) (cnt : Nat) (l : Logger)
    (ctx : Ctx) : Option (Ctx × Logger × Nat) :=
  let st : Ctx × Nat :=
    if logIdNilOrZero ctx then WithLogContext ids cnt ctx else (ctx, cnt)
  match GetLogID st.1 with
  | none => none
  | some newId =>
    let logIdStr := newId.string
    let parentId : GoVal :=
      match GetParentLogID ctx with
      | none => .vnil
      | some pid => if pid.isZero then .vnil else .vstr pid.string
    match buildRestAttrs l.handler.attrs ctx with
    | none => none
    | some rest =>
      let newAttrs :=
        Context keyLogId (.vstr logIdStr) (some getLogIdFunc) none ::
        Context keyParentLogId parentId (some getParentLogIdFunc) none :: rest
      some (st.1, ⟨l.handler.SetContextAttrs newAttrs⟩, st.2)

/-! ## Basic lemmas about the embedding -/

theorem getLogID_setLogID (ctx : Ctx) (oid : Option LogIDVal) :
    GetLogID (SetLogID ctx oid) = oid := by
  cases oid <;> rfl

theorem getParentLogID_setParentLogID (ctx : Ctx) (oid : Option LogIDVal) :
    GetParentLogID (SetParentLogID ctx oid) = oid := by
  cases oid <;> rfl

theorem getLogID_setParentLogID (ctx : Ctx) (oid : Option LogIDVal) :
    GetLogID (SetParentLogID ctx oid) = GetLogID ctx := rfl

theorem getParentLogID_setLogID (ctx : Ctx) (oid : Option LogIDVal) :
    GetParentLogID (SetLogID ctx oid) = GetParentLogID ctx := rfl

/-- The descriptor loop of `ContextHandler.Handle` appends, after the
record's own attributes, exactly the kept attributes of the descriptors in
list order. -/
theorem addCtxAttrs_eq (attrs : List ContextAttr) (ctx : Ctx) (r : Record) :
    addCtxAttrs attrs ctx r =
      { r with attrs := r.attrs ++ attrs.filterMap (fun a => a.Attr ctx) } := by
  induction attrs generalizing r with
  | nil => simp [addCtxAttrs]
  | cons a rest ih =>
    unfold addCtxAttrs
    cases h : a.Attr ctx with
    | none => simp [h, ih]
    | some attr => simp [h, ih, Record.addAttr]

/-- The value `ContextAttr.Attr` resolves before formatting: the resolver's
value when present and found, else the static default. -/
def ContextAttr.resolvedValue (a : ContextAttr) (ctx : Ctx) : GoVal :=
  match a.getFn with
  | none => a.defaultValue
  | some g =>
    match g ctx with
    | some v => v
    | none => a.defaultValue

/-- The formatting step of `ContextAttr.Attr`: the custom formatter when
set, else the default `SetFn()`. -/
def ContextAttr.emit (a : ContextAttr) (value : GoVal) : Option SAttr :=
  match a.setFn with
  | some f => f a.key value
  | none => SetFn a.key value

/-- For a non-empty key, `Attr` formats exactly the resolved value. -/
theorem Attr_eq_emit_resolved (a : ContextAttr) (ctx : Ctx) (hk : ¬ a.key = "") :
    a.Attr ctx = a.emit (a.resolvedValue ctx) := by
  unfold ContextAttr.Attr ContextAttr.emit ContextAttr.resolvedValue
  simp only [hk, if_false]

/-- The clone-then-append loop of `WithContextAttrs` grows the descriptor
list on the accumulator only. -/
theorem foldl_addContextAttr (attrs : List ContextAttr) (c : ContextHandler) :
    attrs.foldl (fun c a => c.AddContextAttr a) c = ⟨c.ih, c.attrs ++ attrs⟩ := by
  induction attrs generalizing c with
  | nil => simp
  | cons a rest ih =>
    rw [List.foldl_cons, ih]
    simp [ContextHandler.AddContextAttr]

/-! ## C2 — descriptor resolution precedence -/

/-- C2: for a descriptor with a non-empty key, a present resolver that
reports found supersedes the static default (the result does not depend on
the default at all); a resolver that reports not-found falls back to the
default; and a nil resolved value with no custom formatter suppresses the
attribute, omitting the key. -/
theorem c2_resolution (a : ContextAttr) (ctx : Ctx) (g : Ctx → Option GoVal)
    (v d : GoVal) (hk : ¬ a.key = "") (hg : a.getFn = some g) :
    (g ctx = some v →
      a.Attr ctx = a.emit v ∧
      ContextAttr.Attr ⟨a.key, d, a.getFn, a.setFn⟩ ctx = a.Attr ctx) ∧
    (g ctx = none → a.Attr ctx = a.emit a.defaultValue) ∧
    (a.setFn = none → a.resolvedValue ctx = GoVal.vnil → a.Attr ctx = none) := by
  refine ⟨fun hv => ⟨?_, ?_⟩, fun hv => ?_, fun hs hr => ?_⟩
  · rw [Attr_eq_emit_resolved a ctx hk]
    unfold ContextAttr.resolvedValue
    simp [hg, hv]
  · unfold ContextAttr.Attr
    simp only [hk, if_false, hg, hv]
  · rw [Attr_eq_emit_resolved a ctx hk]
    unfold ContextAttr.resolvedValue
    simp [hg, hv]
  · rw [Attr_eq_emit_resolved a ctx hk, hr]
    unfold ContextAttr.emit
    rw [hs]
    unfold SetFn
    simp

/-- Witness for C2 at a concrete descriptor and snapshot: the resolver finds
`"r"`, so the emitted attribute carries `"r"` and the default is ignored. -/
theorem c2_witness :
    ((fun _ => some (GoVal.vstr "r")) backgroundCtx = some (GoVal.vstr "r") →
      (Context "k" (.vstr "d") (some fun _ => some (GoVal.vstr "r")) none).Attr backgroundCtx =
        (Context "k" (.vstr "d") (some fun _ => some (GoVal.vstr "r")) none).emit (GoVal.vstr "r") ∧
      ContextAttr.Attr ⟨"k", GoVal.vnil,
        (Context "k" (.vstr "d") (some fun _ => some (GoVal.vstr "r")) none).getFn,
        (Context "k" (.vstr "d") (some fun _ => some (GoVal.vstr "r")) none).setFn⟩ backgroundCtx =
        (Context "k" (.vstr "d") (some fun _ => some (GoVal.vstr "r")) none).Attr backgroundCtx) ∧
    ((fun _ => some (GoVal.vstr "r")) backgroundCtx = none →
      (Context "k" (.vstr "d") (some fun _ => some (GoVal.vstr "r")) none).Attr backgroundCtx =
        (Context "k" (.vstr "d") (some fun _ => some (GoVal.vstr "r")) none).emit (GoVal.vstr "d")) ∧
    ((Context "k" (.vstr "d") (some fun _ => some (GoVal.vstr "r")) none).setFn = none →
      (Context "k" (.vstr "d") (some fun _ => some (GoVal.vstr "r")) none).resolvedValue backgroundCtx = GoVal.vnil →
      (Context "k" (.vstr "d") (some fun _ => some (GoVal.vstr "r")) none).Attr backgroundCtx = none) :=
  c2_resolution (Context "k" (.vstr "d") (some fun _ => some (GoVal.vstr "r")) none)
    backgroundCtx (fun _ => some (GoVal.vstr "r")) (GoVal.vstr "r") GoVal.vnil
    (by decide) rfl

/-! ## C4 — clone independence of the sink's descriptor list -/

/-- A concrete handler for the C4 counterexample. -/
def c4handler : ContextHandler := ⟨⟨fun _ => true, fun _ _ => none⟩, []⟩

/-- A concrete descriptor for the C4 counterexample. -/
def c4attr : ContextAttr := Context "k" .vnil none none

/-- Counterexample to C4 as stated: `AddContextAttr` appends to the
receiver in place (`h.attrs = append(h.attrs, attr)`), so the receiver's own
descriptor list after the call differs from its list before — it is not
"unchanged", and no clone is involved (the method returns nothing). -/
theorem c4_counterexample :
    (c4handler.AddContextAttr c4attr).attrs ≠ c4handler.attrs := by
  intro h
  simp [c4handler, c4attr, ContextHandler.AddContextAttr, Context] at h

/-- C4 amended: `WithContextAttrs` never writes the receiver (its post-state
is the receiver itself) and returns a clone sharing the inner sink whose
descriptor list is the receiver's with the new descriptors appended; by
contrast `AddContextAttr` appends to the receiver's own list in place. -/
theorem c4_clone_independence (h : ContextHandler) (attrs : List ContextAttr)
    (a : ContextAttr) :
    (h.WithContextAttrs attrs).1 = h ∧
    (h.WithContextAttrs attrs).2.attrs = h.attrs ++ attrs ∧
    (h.WithContextAttrs attrs).2.ih = h.ih ∧
    (h.AddContextAttr a).attrs = h.attrs ++ [a] := by
  refine ⟨rfl, ?_, ?_, rfl⟩
  · simp [ContextHandler.WithContextAttrs, foldl_addContextAttr, ContextHandler.clone]
  · simp [ContextHandler.WithContextAttrs, foldl_addContextAttr, ContextHandler.clone]

/-! ## C5 — defensive context reads -/

/-- A snapshot whose identifier slots hold values of unexpected stored
types. -/
def c5ctx : Ctx := ⟨some (.vint 7), some (.vstr "boom"), []⟩

/-- Counterexample to C5 as stated: on a snapshot whose slots hold
unexpected types, `GetLogID` and `GetParentLogID` return the nil interface
value (`none`), not an identifier value whose `IsZero()` is true — there is
no returned identifier on which `IsZero()` could be called at all. -/
theorem c5_counterexample :
    GetLogID c5ctx = none ∧ GetParentLogID c5ctx = none ∧
    ¬ ∃ id : LogIDVal, GetLogID c5ctx = some id ∧ id.isZero = true := by
  refine ⟨rfl, rfl, ?_⟩
  rintro ⟨id, h, -⟩
  simp [c5ctx, GetLogID, asLogID] at h

/-- C5 amended: when the slot is unset or holds a value of an unexpected
stored type, `GetLogID` / `GetParentLogID` return the nil identifier — the
read itself never fails and no type-conversion error propagates (the
accessors are total), while a slot holding a genuine identifier value is
read back intact. -/
theorem c5_defensive_reads (v w : GoVal) (lidSlot pidSlot : Option GoVal)
    (u : List (String × GoVal)) (id : LogIDVal)
    (hv : asLogID v = none) (hw : asLogID w = none) :
    GetLogID ⟨some v, pidSlot, u⟩ = none ∧
    GetLogID ⟨none, pidSlot, u⟩ = none ∧
    GetParentLogID ⟨lidSlot, some w, u⟩ = none ∧
    GetParentLogID ⟨lidSlot, none, u⟩ = none ∧
    GetLogID ⟨some (.vid id), pidSlot, u⟩ = some id :=
  ⟨hv, rfl, hw, rfl, rfl⟩

/-- Witness for C5 at concrete mistyped slot values. -/
theorem c5_witness :
    GetLogID ⟨some (.vint 7), some (.vstr "x"), []⟩ = none ∧
    GetLogID ⟨none, some (.vstr "x"), []⟩ = none ∧
    GetParentLogID ⟨some (.vstr "x"), some (.vstr "boom"), []⟩ = none ∧
    GetParentLogID ⟨some (.vstr "x"), none, []⟩ = none ∧
    GetLogID ⟨some (.vid (.strId "a")), some (.vstr "x"), []⟩ = some (.strId "a") :=
  c5_defensive_reads (.vint 7) (.vstr "boom") (some (.vstr "x")) (some (.vstr "x"))
    [] (.strId "a") rfl rfl

/-! ## C7 — level gating short-circuits -/

/-- C7: when the inner sink reports the level disabled, a logging call
forwards nothing to the inner sink, and its result is independent of the
sink's descriptor list (hence of every resolver) and of the record inputs
(timestamp, message, attributes) — the guard fires before any record
construction or attribute resolution. -/
theorem c7_level_gate (en : Level → Bool) (he he2 : Ctx → Record → Option Err)
    (attrs attrs2 : List ContextAttr) (ctx : Ctx) (level : Level) (t t2 : Nat)
    (msg msg2 : String) (args args2 : List SAttr)
    (hdis : en level = false) :
    Logger.log ⟨⟨⟨en, he⟩, attrs⟩⟩ ctx level t msg args = [] ∧
    Logger.log ⟨⟨⟨en, he⟩, attrs⟩⟩ ctx level t msg args =
      Logger.log ⟨⟨⟨en, he2⟩, attrs2⟩⟩ ctx level t2 msg2 args2 := by
  constructor <;>
    simp [Logger.log, Logger.Enabled, ContextHandler.Enabled, hdis]

/-- Witness for C7: an inner sink disabled at every level receives nothing
from a concrete logging call. -/
theorem c7_witness :
    Logger.log ⟨⟨⟨fun _ => false, fun _ _ => none⟩, []⟩⟩ backgroundCtx LevelInfo 0 "m" [] = [] ∧
    Logger.log ⟨⟨⟨fun _ => false, fun _ _ => none⟩, []⟩⟩ backgroundCtx LevelInfo 0 "m" [] =
      Logger.log ⟨⟨⟨fun _ => false, fun _ _ => some "err"⟩,
        [Context "k" (.vstr "v") none none]⟩⟩ backgroundCtx LevelInfo 1 "other" [⟨"a", .vint 1⟩] :=
  c7_level_gate (fun _ => false) (fun _ _ => none) (fun _ _ => some "err")
    [] [Context "k" (.vstr "v") none none] backgroundCtx LevelInfo 0 1 "m" "other"
    [] [⟨"a", .vint 1⟩] rfl

/-! ## C8 — Handle resolves in order, appends after, forwards once,
propagates the inner error verbatim -/

/-- C8: `Handle` forwards exactly one record to the inner sink; that record
carries the original record's attributes followed by the kept attributes of
the descriptors resolved strictly in list order; and the call returns
exactly the error the inner sink reports for the forwarded record. -/
theorem c8_handle_order_and_error (h : ContextHandler) (ctx : Ctx) (r : Record) :
    (h.Handle ctx r).1 =
      [⟨r.time, r.level, r.msg, r.attrs ++ h.attrs.filterMap (fun a => a.Attr ctx)⟩] ∧
    (h.Handle ctx r).2 = h.ih.handleErr ctx (addCtxAttrs h.attrs ctx r) := by
  constructor
  · show [addCtxAttrs h.attrs ctx r] = _
    rw [addCtxAttrs_eq]
  · rfl

/-! ## C9 — logging entry points discard the handler chain's error -/

/-- C9: every logging entry point (leveled methods, their context variants,
`Log`, `LogAttrs`, and the package-level convenience functions over the
default provider) produces the same inner-sink trace whatever error the
inner sink's `Handle` reports — the error is discarded and never observable
to the caller (in the source the entry points return nothing and `log`
drops the error with a blank assignment). -/
theorem c9_errors_discarded (en : Level → Bool) (e1 e2 : Ctx → Record → Option Err)
    (attrs : List ContextAttr) (ctx : Ctx) (level : Level) (t : Nat)
    (msg : String) (args : List SAttr) :
    Logger.Debug ⟨⟨⟨en, e1⟩, attrs⟩⟩ t msg args = Logger.Debug ⟨⟨⟨en, e2⟩, attrs⟩⟩ t msg args ∧
    Logger.DebugContext ⟨⟨⟨en, e1⟩, attrs⟩⟩ ctx t msg args =
      Logger.DebugContext ⟨⟨⟨en, e2⟩, attrs⟩⟩ ctx t msg args ∧
    Logger.Info ⟨⟨⟨en, e1⟩, attrs⟩⟩ t msg args = Logger.Info ⟨⟨⟨en, e2⟩, attrs⟩⟩ t msg args ∧
    Logger.InfoContext ⟨⟨⟨en, e1⟩, attrs⟩⟩ ctx t msg args =
      Logger.InfoContext ⟨⟨⟨en, e2⟩, attrs⟩⟩ ctx t msg args ∧
    Logger.Warn ⟨⟨⟨en, e1⟩, attrs⟩⟩ t msg args = Logger.Warn ⟨⟨⟨en, e2⟩, attrs⟩⟩ t msg args ∧
    Logger.WarnContext ⟨⟨⟨en, e1⟩, attrs⟩⟩ ctx t msg args =
      Logger.WarnContext ⟨⟨⟨en, e2⟩, attrs⟩⟩ ctx t msg args ∧
    Logger.Error ⟨⟨⟨en, e1⟩, attrs⟩⟩ t msg args = Logger.Error ⟨⟨⟨en, e2⟩, attrs⟩⟩ t msg args ∧
    Logger.ErrorContext ⟨⟨⟨en, e1⟩, attrs⟩⟩ ctx t msg args =
      Logger.ErrorContext ⟨⟨⟨en, e2⟩, attrs⟩⟩ ctx t msg args ∧
    Logger.Log ⟨⟨⟨en, e1⟩, attrs⟩⟩ ctx level t msg args =
      Logger.Log ⟨⟨⟨en, e2⟩, attrs⟩⟩ ctx level t msg args ∧
    Logger.LogAttrs ⟨⟨⟨en, e1⟩, attrs⟩⟩ ctx level t msg args =
      Logger.LogAttrs ⟨⟨⟨en, e2⟩, attrs⟩⟩ ctx level t msg args ∧
    pkgInfo ⟨⟨⟨⟨en, e1⟩, attrs⟩⟩⟩ t msg args = pkgInfo ⟨⟨⟨⟨en, e2⟩, attrs⟩⟩⟩ t msg args ∧
    pkgErrorContext ⟨⟨⟨⟨en, e1⟩, attrs⟩⟩⟩ ctx t msg args =
      pkgErrorContext ⟨⟨⟨⟨en, e2⟩, attrs⟩⟩⟩ ctx t msg args ∧
    pkgLog ⟨⟨⟨⟨en, e1⟩, attrs⟩⟩⟩ ctx level t msg args =
      pkgLog ⟨⟨⟨⟨en, e2⟩, attrs⟩⟩⟩ ctx level t msg args :=
  ⟨rfl, rfl, rfl, rfl, rfl, rfl, rfl, rfl, rfl, rfl, rfl, rfl, rfl⟩

/-! ## C3 — lineage advancement of the child bind -/

/-- A deterministic non-repeating generator stream for the C3 witness:
distinct `ByteLogID`s indexed by the first byte. -/
def c3ids : Nat → Option LogIDVal := fun n => some (.byteId [n, 0, 0, 0, 0, 0, 0, 0])

/-- A snapshot whose current identifier is the generator's output 1 and
whose parent identifier is its output 0. -/
def c3ctx : Ctx := SetParentLogID (SetLogID backgroundCtx (c3ids 1)) (c3ids 0)

/-- C3: the child bind moves the snapshot's current identifier into the
parent slot and installs the generator's next output as current; when the
generator never repeats and the snapshot's identifiers came from earlier
generator calls, the new current identifier differs from both, and the
generator advances exactly once. -/
theorem c3_child_bind (ids : Nat → Option LogIDVal) (n k1 k2 : Nat) (ctx : Ctx)
    (hinj : Function.Injective ids) (h1 : GetLogID ctx = ids k1)
    (h2 : GetParentLogID ctx = ids k2) (hk1 : k1 < n) (hk2 : k2 < n) :
    GetParentLogID (WithChildLogContext ids n ctx).1 = GetLogID ctx ∧
    GetLogID (WithChildLogContext ids n ctx).1 = ids n ∧
    GetLogID (WithChildLogContext ids n ctx).1 ≠ GetLogID ctx ∧
    GetLogID (WithChildLogContext ids n ctx).1 ≠ GetParentLogID ctx ∧
    (WithChildLogContext ids n ctx).2 = n + 1 := by
  unfold WithChildLogContext
  refine ⟨?_, ?_, ?_, ?_, rfl⟩
  · rw [getParentLogID_setLogID, getParentLogID_setParentLogID]
  · rw [getLogID_setLogID]
  · rw [getLogID_setLogID, h1]
    intro h
    exact absurd (hinj h) (Nat.ne_of_gt hk1)
  · rw [getLogID_setLogID, h2]
    intro h
    exact absurd (hinj h) (Nat.ne_of_gt hk2)

/-- Witness for C3 with the concrete counting generator at counter 2. -/
theorem c3_witness :
    GetParentLogID (WithChildLogContext c3ids 2 c3ctx).1 = GetLogID c3ctx ∧
    GetLogID (WithChildLogContext c3ids 2 c3ctx).1 = c3ids 2 ∧
    GetLogID (WithChildLogContext c3ids 2 c3ctx).1 ≠ GetLogID c3ctx ∧
    GetLogID (WithChildLogContext c3ids 2 c3ctx).1 ≠ GetParentLogID c3ctx ∧
    (WithChildLogContext c3ids 2 c3ctx).2 = 2 + 1 :=
  c3_child_bind c3ids 2 1 0 c3ctx
    (fun a b hab => by simpa [c3ids] using hab) rfl rfl
    (by decide) (by decide)

/-! ## C6 — zero identifiers are omitted from output -/

/-- The condition "the parent identifier reads as nil or zero". -/
def parentNilOrZero (ctx : Ctx) : Bool :=
  match GetParentLogID ctx with
  | none => true
  | some id => id.isZero

/-- A successful `SetFn` keeps the key it was given. -/
theorem SetFn_key (k : String) (v : GoVal) (x : SAttr) (h : SetFn k v = some x) :
    x.key = k := by
  unfold SetFn at h
  split at h
  · exact absurd h (by simp)
  · injection h with h2
    rw [← h2]

/-- A descriptor with the default formatter only ever emits its own key. -/
theorem Attr_key (a : ContextAttr) (ctx : Ctx) (x : SAttr) (hs : a.setFn = none)
    (h : a.Attr ctx = some x) : x.key = a.key := by
  unfold ContextAttr.Attr at h
  split at h
  · exact absurd h (by simp)
  · simp only [hs] at h
    exact SetFn_key _ _ _ h

/-- When the current identifier reads as nil or zero, the built-in `logId`
descriptor resolves to not-found, falls back to its nil default, and is
suppressed. -/
theorem logIdAttr_none (ctx : Ctx) (h : logIdNilOrZero ctx = true) :
    (Context keyLogId .vnil (some getLogIdFunc) none).Attr ctx = none := by
  unfold logIdNilOrZero at h
  unfold ContextAttr.Attr Context getLogIdFunc
  cases hg : GetLogID ctx with
  | none => simp [hg, SetFn, keyLogId]
  | some id =>
    rw [hg] at h
    simp only at h
    simp [hg, h, SetFn, keyLogId]

/-- The `parentLogId` analogue of `logIdAttr_none`. -/
theorem parentLogIdAttr_none (ctx : Ctx) (h : parentNilOrZero ctx = true) :
    (Context keyParentLogId .vnil (some getParentLogIdFunc) none).Attr ctx = none := by
  unfold parentNilOrZero at h
  unfold ContextAttr.Attr Context getParentLogIdFunc
  cases hg : GetParentLogID ctx with
  | none => simp [hg, SetFn, keyParentLogId]
  | some id =>
    rw [hg] at h
    simp only at h
    simp [hg, h, SetFn, keyParentLogId]

/-- C6: on the default provider's sink, whenever the current identifier
reads as unset (nil) or zero, the record forwarded to the inner sink carries
no `logId` attribute beyond those the record already had — no empty-string
or placeholder value is emitted; likewise for `parentLogId` when the parent
identifier reads as unset or zero. -/
theorem c6_zero_id_omission (ih : InnerHandler) (ctx : Ctx) (r : Record) :
    (logIdNilOrZero ctx = true →
      (((NewLoggerProvider ih).logger.handler.Handle ctx r).1.map
        (fun rec => rec.attrs.filter (fun x => x.key == keyLogId))) =
        [r.attrs.filter (fun x => x.key == keyLogId)]) ∧
    (parentNilOrZero ctx = true →
      (((NewLoggerProvider ih).logger.handler.Handle ctx r).1.map
        (fun rec => rec.attrs.filter (fun x => x.key == keyParentLogId))) =
        [r.attrs.filter (fun x => x.key == keyParentLogId)]) := by
  have hh : (NewLoggerProvider ih).logger.handler =
      ⟨ih, [Context keyLogId .vnil (some getLogIdFunc) none,
            Context keyParentLogId .vnil (some getParentLogIdFunc) none]⟩ := rfl
  constructor
  · intro h1
    have ha1 := logIdAttr_none ctx h1
    rw [hh]
    show [(addCtxAttrs _ ctx r).attrs.filter _] = _
    rw [addCtxAttrs_eq]
    simp only [List.filterMap, ha1, List.filter_append, List.cons.injEq, and_true]
    cases hz : (Context keyParentLogId .vnil (some getParentLogIdFunc) none).Attr ctx with
    | none => simp [hz]
    | some x =>
      have hxk : x.key = keyParentLogId := Attr_key _ _ _ rfl hz
      simp [hz, List.filter, hxk, keyLogId, keyParentLogId]
  · intro h2
    have ha2 := parentLogIdAttr_none ctx h2
    rw [hh]
    show [(addCtxAttrs _ ctx r).attrs.filter _] = _
    rw [addCtxAttrs_eq]
    simp only [List.filterMap, ha2, List.filter_append, List.cons.injEq, and_true]
    cases hz : (Context keyLogId .vnil (some getLogIdFunc) none).Attr ctx with
    | none => simp [hz]
    | some x =>
      have hxk : x.key = keyLogId := Attr_key _ _ _ rfl hz
      simp [hz, List.filter, hxk, keyLogId, keyParentLogId]

/-- Witness for C6: on the background snapshot (both identifiers unset), a
concrete record's `logId`/`parentLogId` attributes pass through a default
provider sink unchanged — nothing identifier-shaped is added. -/
theorem c6_witness :
    (logIdNilOrZero backgroundCtx = true →
      ((((NewLoggerProvider ⟨fun _ => true, fun _ _ => none⟩).logger.handler.Handle
          backgroundCtx ⟨0, LevelInfo, "m", [⟨"a", .vint 1⟩]⟩).1.map
        (fun rec => rec.attrs.filter (fun x => x.key == keyLogId)))) =
        [([⟨"a", .vint 1⟩] : List SAttr).filter (fun x => x.key == keyLogId)]) ∧
    (parentNilOrZero backgroundCtx = true →
      ((((NewLoggerProvider ⟨fun _ => true, fun _ _ => none⟩).logger.handler.Handle
          backgroundCtx ⟨0, LevelInfo, "m", [⟨"a", .vint 1⟩]⟩).1.map
        (fun rec => rec.attrs.filter (fun x => x.key == keyParentLogId)))) =
        [([⟨"a", .vint 1⟩] : List SAttr).filter (fun x => x.key == keyParentLogId)]) :=
  c6_zero_id_omission ⟨fun _ => true, fun _ _ => none⟩ backgroundCtx
    ⟨0, LevelInfo, "m", [⟨"a", .vint 1⟩]⟩

/-! ## C10 — WithContext requires every non-id descriptor to carry a
resolver -/

/-- The descriptor loop of `WithContext` hits the nil-function fault as soon
as the list holds a non-identifier descriptor without a resolver. -/
theorem buildRestAttrs_none (attrs : List ContextAttr) (ctx : Ctx) (a : ContextAttr)
    (ha : a ∈ attrs) (hk1 : ¬ a.key = keyLogId) (hk2 : ¬ a.key = keyParentLogId)
    (hg : a.getFn = none) : buildRestAttrs attrs ctx = none := by
  induction attrs with
  | nil => cases ha
  | cons b rest ih =>
    unfold buildRestAttrs
    rcases List.mem_cons.mp ha with rfl | hmem
    · simp [hk1, hk2, hg]
    · by_cases hid : b.key = keyLogId ∨ b.key = keyParentLogId
      · simp [hid, ih hmem]
      · cases hgb : b.getFn with
        | none => simp [hid, hgb]
        | some g => simp [hid, hgb, ih hmem]

/-- C10: binding through `WithContext` invokes every registered
non-identifier descriptor's resolver unconditionally, so a sink carrying a
non-identifier descriptor with no resolver makes `WithContext` hit the Go
nil-function-call fault (modelled as `none`); the same descriptor shape is
harmless at `Handle` time, where `Attr` guards the resolver and formats the
static default. -/
theorem c10_nil_resolver (ids : Nat → Option LogIDVal) (cnt : Nat) (l : Logger)
    (ctx ctx2 : Ctx) (a : ContextAttr) (k : String) (dv : GoVal)
    (sf : Option (String → GoVal → Option SAttr))
    (ha : a ∈ l.handler.attrs) (hk1 : ¬ a.key = keyLogId)
    (hk2 : ¬ a.key = keyParentLogId) (hg : a.getFn = none)
    (hkk : ¬ k = "") :
    Logger.WithContext ids cnt l ctx = none ∧
    ContextAttr.Attr ⟨k, dv, none, sf⟩ ctx2 =
      ContextAttr.emit ⟨k, dv, none, sf⟩ dv := by
  constructor
  · have hb := buildRestAttrs_none l.handler.attrs ctx a ha hk1 hk2 hg
    unfold Logger.WithContext
    cases hgl : GetLogID (if logIdNilOrZero ctx then WithLogContext ids cnt ctx else (ctx, cnt)).1 with
    | none => simp [hgl]
    | some newId => simp [hgl, hb]
  · rw [Attr_eq_emit_resolved _ ctx2 hkk]
    rfl

/-- A sink carrying a resolver-less non-identifier descriptor, for the C10
witness. -/
def c10logger : Logger :=
  ⟨⟨⟨fun _ => true, fun _ _ => none⟩, [Context "user" (.vstr "u") none none]⟩⟩

/-- Witness for C10: binding that concrete logger faults, while resolving
the same descriptor at Handle time formats its default. -/
theorem c10_witness :
    Logger.WithContext c3ids 0 c10logger backgroundCtx = none ∧
    ContextAttr.Attr ⟨"user", .vstr "u", none, none⟩ backgroundCtx =
      ContextAttr.emit ⟨"user", .vstr "u", none, none⟩ (.vstr "u") :=
  c10_nil_resolver c3ids 0 c10logger backgroundCtx backgroundCtx
    (Context "user" (.vstr "u") none none) "user" (.vstr "u") none
    (List.Mem.head _) (by decide) (by decide) rfl (by decide)

/-! ## C1 — the WithContext bind and its replacement descriptor list

The `Spec` definitions below render the claim's description of the
replacement descriptor list (as amended) in its own words, to be compared
with the source-derived `Logger.WithContext`. -/

namespace Spec

/-- The claim's bind step: advance the snapshot (and the generator) exactly
when the current identifier is absent or zero. -/
def bindCtx (ids : Nat → Option LogIDVal) (cnt : Nat) (ctx : Ctx) : Ctx × Nat :=
  if logIdNilOrZero ctx then WithLogContext ids cnt ctx else (ctx, cnt)

/-- The string rendering of a snapshot's current identifier. -/
def currentIdStr (ctx : Ctx) : String :=
  match GetLogID ctx with
  | some id => id.string
  | none => ""

/-- The claim's parent default: the incoming snapshot's parent identifier,
absent when nil or zero. -/
def parentPinned (ctx : Ctx) : GoVal :=
  match GetParentLogID ctx with
  | none => .vnil
  | some pid => if pid.isZero then .vnil else .vstr pid.string

/-- The claim's pinned default for a re-registered descriptor: the value its
resolver yields on the incoming snapshot, absent when not found. -/
def pinnedDefault (a : ContextAttr) (ctx : Ctx) : GoVal :=
  match a.getFn with
  | some g =>
    match g ctx with
    | some v => v
    | none => .vnil
  | none => .vnil

/-- The claim as amended, for the non-identifier descriptors: every
descriptor registered on the receiver's sink other than the identifier ones
reappears with the same key and resolver, the pinned default, and the
default (nil) formatter — the registered descriptor's custom formatter is
not carried over. -/
def pinNonId : List ContextAttr → Ctx → List ContextAttr
  | [], _ => []
  | a :: rest, ctx =>
    if a.key = keyLogId ∨ a.key = keyParentLogId then pinNonId rest ctx
    else ⟨a.key, pinnedDefault a ctx, a.getFn, none⟩ :: pinNonId rest ctx

/-- The claim's full replacement descriptor list: the current-id descriptor
defaulting to the advanced snapshot's identifier string, the parent-id
descriptor defaulting to the incoming snapshot's parent, then the pinned
non-identifier descriptors. -/
def bindAttrs (attrs : List ContextAttr) (ids : Nat → Option LogIDVal) (cnt : Nat)
    (ctx : Ctx) : List ContextAttr :=
  ⟨keyLogId, .vstr (currentIdStr (bindCtx ids cnt ctx).1), some getLogIdFunc, none⟩ ::
  ⟨keyParentLogId, parentPinned ctx, some getParentLogIdFunc, none⟩ ::
  pinNonId attrs ctx

end Spec

/-- When every non-identifier descriptor carries a resolver, the descriptor
loop of `WithContext` succeeds and produces exactly the pinned list. -/
theorem buildRestAttrs_pin (attrs : List ContextAttr) (ctx : Ctx)
    (hFn : ∀ a ∈ attrs, ¬ a.key = keyLogId → ¬ a.key = keyParentLogId →
      a.getFn.isSome = true) :
    buildRestAttrs attrs ctx = some (Spec.pinNonId attrs ctx) := by
  induction attrs with
  | nil => rfl
  | cons a rest ih =>
    have hrest := ih (fun b hb hb1 hb2 => hFn b (List.mem_cons_of_mem a hb) hb1 hb2)
    unfold buildRestAttrs Spec.pinNonId
    by_cases hid : a.key = keyLogId ∨ a.key = keyParentLogId
    · simp [hid, hrest]
    · push_neg at hid
      have hsome := hFn a (List.mem_cons_self a rest) hid.1 hid.2
      cases hg : a.getFn with
      | none => rw [hg] at hsome; simp at hsome
      | some g =>
        simp [hid.1, hid.2, hg, hrest, Spec.pinnedDefault, Context]

/-- The bind step inside `WithContext` leaves the snapshot with a readable
current identifier whenever the generator yields one. -/
theorem bindCtx_getLogID_isSome (ids : Nat → Option LogIDVal) (cnt : Nat) (ctx : Ctx)
    (hGen : (ids cnt).isSome = true) :
    (GetLogID (Spec.bindCtx ids cnt ctx).1).isSome = true := by
  unfold Spec.bindCtx
  cases hbf : logIdNilOrZero ctx with
  | true => simp [WithLogContext, getLogID_setLogID, hGen]
  | false =>
    unfold logIdNilOrZero at hbf
    cases hgl : GetLogID ctx with
    | none => rw [hgl] at hbf; simp at hbf
    | some id => simp [hgl]

/-- C1 as amended: `WithContext` advances the snapshot (minting a fresh
identifier through the generator) exactly when the incoming current
identifier is absent or zero, so the returned snapshot always carries a
current identifier; and the returned logger's sink holds, wholesale, the
replacement descriptor list `Spec.bindAttrs` — current-id descriptor
pinned to the advanced snapshot's identifier, parent-id descriptor pinned to
the incoming parent (absent when nil or zero), and each non-identifier
descriptor re-registered with its key and resolver, its resolver's current
value as default, and the default formatter. Hypotheses: every
non-identifier registered descriptor has a resolver (else `WithContext`
faults, claim C10) and the generator yields an identifier. -/
theorem c1_with_context_amended (ids : Nat → Option LogIDVal) (cnt : Nat) (l : Logger)
    (ctx : Ctx)
    (hFn : ∀ a ∈ l.handler.attrs, ¬ a.key = keyLogId → ¬ a.key = keyParentLogId →
      a.getFn.isSome = true)
    (hGen : (ids cnt).isSome = true) :
    Logger.WithContext ids cnt l ctx =
      some ((Spec.bindCtx ids cnt ctx).1,
            ⟨⟨l.handler.ih, Spec.bindAttrs l.handler.attrs ids cnt ctx⟩⟩,
            (Spec.bindCtx ids cnt ctx).2) ∧
    (GetLogID (Spec.bindCtx ids cnt ctx).1).isSome = true ∧
    (logIdNilOrZero ctx = true ↔ (Spec.bindCtx ids cnt ctx).2 = cnt + 1) := by
  have hsome := bindCtx_getLogID_isSome ids cnt ctx hGen
  refine ⟨?_, hsome, ?_⟩
  · obtain ⟨newId, hnew⟩ := Option.isSome_iff_exists.mp hsome
    have hrest := buildRestAttrs_pin l.handler.attrs ctx hFn
    unfold Logger.WithContext
    have hst : (if logIdNilOrZero ctx then WithLogContext ids cnt ctx else (ctx, cnt)) =
        Spec.bindCtx ids cnt ctx := rfl
    rw [hst]
    simp only [hnew, hrest]
    unfold Spec.bindAttrs Spec.currentIdStr Spec.parentPinned
    rw [hnew]
    rfl
  · unfold Spec.bindCtx
    cases hbf : logIdNilOrZero ctx with
    | true => simp [WithLogContext]
    | false => simp

/-- A resolver used by the C1 counterexample's extra descriptor. -/
def c1getFn : Ctx → Option GoVal := fun _ => some (.vstr "v")

/-- A custom formatter carried by the C1 counterexample's extra
descriptor. -/
def c1setFn : String → GoVal → Option SAttr := fun _ _ => none

/-- A provider-style logger whose sink registers, after the two identifier
descriptors, one extra descriptor carrying a custom formatter. -/
def c1logger : Logger :=
  ⟨⟨⟨fun _ => true, fun _ _ => none⟩,
    [Context keyLogId .vnil (some getLogIdFunc) none,
     Context keyParentLogId .vnil (some getParentLogIdFunc) none,
     Context "req" .vnil (some c1getFn) (some c1setFn)]⟩⟩

/-- A generator stream for the C1 theorems. -/
def c1ids : Nat → Option LogIDVal := fun _ => some (.strId "id0")

/-- A snapshot already carrying a non-zero current identifier. -/
def c1ctx : Ctx := SetLogID backgroundCtx (some (.strId "abc"))

/-- Counterexample to C1 as stated: the receiver's sink registers a non-id
descriptor whose formatter is set (third flag `true` below), yet every
descriptor of the logger returned by `WithContext` has no formatter — the
re-registered descriptor does not keep "the same key, resolver, and
formatter": its custom formatter is dropped (the source passes a nil
formatter when rebuilding). -/
theorem c1_counterexample :
    (Logger.WithContext c1ids 0 c1logger c1ctx).map
      (fun x => x.2.1.handler.attrs.map (fun a => a.setFn.isSome)) =
      some [false, false, false] ∧
    c1logger.handler.attrs.map (fun a => a.setFn.isSome) = [false, false, true] :=
  ⟨rfl, rfl⟩

/-- A sink with one resolver-carrying non-identifier descriptor, for the C1
witness. -/
def c1wlogger : Logger :=
  ⟨⟨⟨fun _ => true, fun _ _ => none⟩, [Context "req" .vnil (some c1getFn) none]⟩⟩

/-- Witness for C1 (amended) at a concrete logger, generator and the empty
snapshot: the bind mints identifier `id0` and rebuilds the descriptor
list. -/
theorem c1_witness :
    Logger.WithContext c1ids 0 c1wlogger backgroundCtx =
      some ((Spec.bindCtx c1ids 0 backgroundCtx).1,
            ⟨⟨c1wlogger.handler.ih, Spec.bindAttrs c1wlogger.handler.attrs c1ids 0 backgroundCtx⟩⟩,
            (Spec.bindCtx c1ids 0 backgroundCtx).2) ∧
    (GetLogID (Spec.bindCtx c1ids 0 backgroundCtx).1).isSome = true ∧
    (logIdNilOrZero backgroundCtx = true ↔ (Spec.bindCtx c1ids 0 backgroundCtx).2 = 0 + 1) :=
  c1_with_context_amended c1ids 0 c1wlogger backgroundCtx
    (by
      intro a ha h1 h2
      simp only [c1wlogger, List.mem_singleton] at ha
      rw [ha]
      rfl)
    rfl

end Cslog
